import Mathlib

/-!
Verification development for the GitHub Project Uploader.

The Python sources ( `gui_components.py`, `github_launcher.py`, `utils.py` )
are shallowly embedded below.  HTTP traffic, the external `git` executable
and the filesystem are modelled as explicit inputs ( `HttpResult`,
`GitEnv`, ... ); each workflow function returns both its `(success, message)`
result and the trace of external commands it issued, so that properties
about "which commands ran" can be stated directly.
-/

namespace GithubUploader

/-! ### String helpers

The Python sources use `str.strip`, `str.lower` and the `in` substring
test.  They are embedded here as executable functions on `String.data`
(the underlying character list), which the Lean kernel can evaluate.
-/

/-- Python `str.strip()` : drop whitespace from both ends. -/
def strip (s : String) : String :=
  ⟨((s.data.dropWhile Char.isWhitespace).reverse.dropWhile Char.isWhitespace).reverse⟩

/-- Python `str.lower()` (ASCII range, which is all the sources compare). -/
def lowerStr (s : String) : String :=
  ⟨s.data.map Char.toLower⟩

/-- Is `pat` a contiguous substring of `s` ?  (Python `pat in s`.) -/
def strContainsSub (s pat : String) : Bool :=
  (s.data.tails).any (fun t => pat.data.isPrefixOf t)

/-! ### Repository Client : existence check  (claim C1)

`MainWindow.check_repository_exists` ( `gui_components.py` lines 639-655 )
and `GitHubLauncher.check_repository_exists` ( `github_launcher.py` lines
83-100 ).  The single HTTP GET is modelled by an `HttpResult` input:
either a response with a status code and body, or a raised request
exception carrying a message.
-/

/-- Outcome of the single HTTP request made by the existence check. -/
inductive HttpResult where
  | response (status : Nat) (body : String)
  | exn (msg : String)
deriving DecidableEq, Repr

/-- `MainWindow.check_repository_exists` : if/elif chain over the status. -/
def check_repository_exists (username repo_name : String) (r : HttpResult) :
    Bool × String :=
  match r with
  | .exn e => (false, "Error checking repository: " ++ e)
  | .response status _body =>
    if status = 200 then
      (true, "Repository exists and accessible")
    else if status = 404 then
      (false, "Repository " ++ repo_name ++ " not found in " ++ username ++ " account")
    else if status = 401 then
      (false, "Authentication failed - check your Personal Access Token")
    else
      (false, "GitHub API error: " ++ toString status)

/-- Second component of `GitHubLauncher.check_repository_exists` :
either the parsed response body (repo metadata) or a failure reason. -/
inductive ExistsInfo where
  | repoData (body : String)
  | reason (msg : String)
deriving DecidableEq, Repr

/-- `GitHubLauncher.check_repository_exists` ( `github_launcher.py` 83-100 ). -/
def launcher_check_repository_exists (_owner _repo : String) (r : HttpResult) :
    Bool × ExistsInfo :=
  match r with
  | .exn e => (false, .reason ("Network error: " ++ e))
  | .response status body =>
    if status = 200 then
      (true, .repoData body)
    else if status = 404 then
      (false, .reason ("Repository not found or not accessible"))
    else if status = 401 then
      (false, .reason ("Authentication failed - check credentials"))
    else
      (false, .reason ("GitHub API error: " ++ toString status))

/-! ### VCS driver environment and command traces  (claims C2-C6)

`init_and_push_repository` and `commit_to_existing_repository` shell out
to `git`.  The external world is a `GitEnv` :

* `gitFound` — whether `find_git_executable` located a usable binary;
* `gitignoreExists` — whether `<project>/.gitignore` already exists;
* `hasGitDir` — whether `<project>/.git` already exists (existing path);
* `cloneExit`, `cloneStderr` — outcome of `git clone` into the temp dir;
* `copyFails`, `copyErrMsg` — whether `shutil.copytree` of the cloned
  `.git` raises, and the exception text;
* `statusOutput` — stdout of `git status --porcelain` after staging;
* `pushExit`, `pushStderr`, `pushStdout` — outcome of `git push`.

The `git` commands run with `check=True` ( `init`, `config`, `add`,
`commit`, `branch`, `remote` ) raise on failure and land in the generic
`CalledProcessError` handler; no claim concerns those failure points, so
the model covers the runs in which they succeed.
-/

structure GitEnv where
  gitFound : Bool
  gitignoreExists : Bool
  hasGitDir : Bool
  cloneExit : Nat
  cloneStderr : String
  copyFails : Bool
  copyErrMsg : String
  statusOutput : String
  pushExit : Nat
  pushStderr : String
  pushStdout : String
deriving DecidableEq, Repr

/-- One external command issued by the workflow (side effects included:
writing the ignore file, copying the cloned `.git`, removing the temp
directory). -/
inductive GitCmd where
  | gitInit
  | configUserName (name : String)
  | configUserEmail (email : String)
  | writeGitignore
  | addAll
  | addUpdate
  | addPath (p : String)
  | statusPorcelain
  | commit (msg : String)
  | branchMain
  | remoteAddOrigin (url : String)
  | pushUpstream
  | push
  | cloneRepo (url : String)
  | copyGitDir
  | removeTempDir
deriving DecidableEq, Repr

/-- Python `error_output = result.stderr or result.stdout` for the push. -/
def push_error_output (env : GitEnv) : String :=
  if env.pushStderr ≠ ("") then env.pushStderr else env.pushStdout

/-- The push-failure classification of `init_and_push_repository`
( `gui_components.py` lines 595-608 ) : pattern-match the combined
output against known substrings before the generic fallback. -/
def classify_push_failure (error_output : String) : String :=
  if strContainsSub (lowerStr error_output) ("authentication failed")
      || strContainsSub (lowerStr error_output) ("invalid username or password") then
    "Git push authentication failed. Please check your Personal Access Token permissions."
  else if strContainsSub (lowerStr error_output) ("repository not found") then
    "Repository not found. Please check if the repository was created successfully."
  else if strContainsSub (lowerStr error_output) ("permission denied") then
    "Permission denied. Please check your Personal Access Token has write permissions."
  else if strContainsSub error_output ("remote: Support for password authentication was removed") then
    "Password authentication not supported. Please use a Personal Access Token instead of password."
  else
    "Git push failed: " ++ error_output

/-- The authenticated remote URL built by both workflow paths. -/
def remote_url (username token repo_name : String) : String :=
  "https://" ++ username ++ ":" ++ token ++ "@github.com/" ++ username ++ "/" ++ repo_name ++ ".git"

/-- `MainWindow.init_and_push_repository` ( `gui_components.py` 527-637 ),
new-repository path: init, configure identity, write `.gitignore` if
absent, `add .`, porcelain status check, commit, `branch -M main`,
`remote add origin`, `push -u origin main` with failure classification.
Returns the terminal `(success, message)` and the issued command trace. -/
def init_and_push_repository (env : GitEnv) (username repo_name token : String) :
    (Bool × String) × List GitCmd :=
  if ¬ env.gitFound then
    ((false, "Git is not found. Please install Git from git-scm.com or check if it is in your PATH."), [])
  else
    let pre : List GitCmd :=
      [.gitInit, .configUserName username, .configUserEmail (username ++ "@github.com")]
        ++ (if ¬ env.gitignoreExists then [.writeGitignore] else [])
        ++ [.addAll, .statusPorcelain]
    if strip env.statusOutput = ("") then
      ((false, "No files found to upload in the selected directory"), pre)
    else
      let tr := pre ++ [.commit ("Initial commit"), .branchMain,
        .remoteAddOrigin (remote_url username token repo_name), .pushUpstream]
      if env.pushExit ≠ 0 then
        ((false, classify_push_failure (push_error_output env)), tr)
      else
        ((true, "Project successfully uploaded to https://github.com/" ++ username ++ "/" ++ repo_name), tr)

/-- The staging commands issued for each commit mode
( `gui_components.py` lines 698-716 ) : `"all"` runs `git add .`,
`"changed"` runs `git add -u`, `"selected"` runs `git add <p>` for each
selected relative path. -/
def staging_cmds (commit_mode : String) (selected_files : List String) : List GitCmd :=
  if commit_mode = ("all") then [.addAll]
  else if commit_mode = ("changed") then [.addUpdate]
  else if commit_mode = ("selected") then selected_files.map GitCmd.addPath
  else []

/-- `MainWindow.commit_to_existing_repository` ( `gui_components.py`
657-760 ), existing-repository path: when the directory has no `.git`,
clone into a fresh temp directory, copy the cloned `.git` over, remove
the temp directory (only after a successful copy); then configure
identity, stage per commit mode, porcelain status check, commit with the
(defaulted) message, plain `git push`.  A failed clone or a raised copy
returns early — before the `removeTempDir` step. -/
def commit_to_existing_repository (env : GitEnv) (commit_mode : String)
    (selected_files : List String) (commit_message_input : String)
    (username repo_name token : String) : (Bool × String) × List GitCmd :=
  if ¬ env.gitFound then
    ((false, "Git is not found. Please install Git from git-scm.com or check if it is in your PATH."), [])
  else if ¬ env.hasGitDir ∧ env.cloneExit ≠ 0 then
    ((false, "Failed to clone repository: " ++ env.cloneStderr),
      [.cloneRepo (remote_url username token repo_name)])
  else if ¬ env.hasGitDir ∧ env.copyFails then
    ((false, "Error during commit operation: " ++ env.copyErrMsg),
      [.cloneRepo (remote_url username token repo_name), .copyGitDir])
  else
    let cloneTrace : List GitCmd :=
      if ¬ env.hasGitDir then
        [.cloneRepo (remote_url username token repo_name), .copyGitDir, .removeTempDir]
      else []
    let tr1 := cloneTrace
      ++ [.configUserName username, .configUserEmail (username ++ "@github.com")]
      ++ staging_cmds commit_mode selected_files ++ [.statusPorcelain]
    if strip env.statusOutput = ("") then
      ((false, "No changes found to commit"), tr1)
    else
      let commit_message :=
        if strip commit_message_input = ("") then "Update files" else strip commit_message_input
      let tr2 := tr1 ++ [.commit commit_message, .push]
      if env.pushExit ≠ 0 then
        ((false, "Git push failed: " ++ push_error_output env), tr2)
      else
        ((true, "Changes successfully committed to https://github.com/" ++ username ++ "/" ++ repo_name), tr2)

/-- Commands that stage files into the index. -/
def isStagingCmd : GitCmd → Bool
  | .addAll => true
  | .addUpdate => true
  | .addPath _ => true
  | _ => false

/-- The part of a trace issued strictly before the first staging command. -/
def preStagingTrace (tr : List GitCmd) : List GitCmd :=
  tr.takeWhile (fun c => ¬ isStagingCmd c)

/-- A temp directory was created during the run (the clone step always
creates one with `tempfile.mkdtemp` just before cloning into it). -/
def temp_dir_created (tr : List GitCmd) : Bool :=
  tr.any (fun c => match c with | .cloneRepo _ => true | _ => false)

/-- The temp directory was removed ( `shutil.rmtree(temp_dir)` ) during the run. -/
def temp_dir_removed (tr : List GitCmd) : Bool :=
  tr.contains .removeTempDir

/-! ### Repository creation and the new-repository driver  (claim C4)

`MainWindow.create_github_repository` ( `gui_components.py` 470-501 ).
The POST outcome is an `ApiResult` : a response carries the status code,
the list of error codes found under the `errors` key of the JSON body
(`none` when the key is absent), the JSON `message` field, and the raw
body text; or the request raised.
-/

inductive ApiResult where
  | response (status : Nat) (errorCodes : Option (List String))
      (message : Option String) (body : String)
  | exn (msg : String)
deriving DecidableEq, Repr

/-- `MainWindow.create_github_repository` : 201 is success; 422 reports
already-exists when any error code equals `already_exists`, otherwise a
validation failure; 401 / 403 / other statuses map to fixed reasons. -/
def create_github_repository (repo_name : String) (r : ApiResult) : Bool × String :=
  match r with
  | .exn e => (false, "Error creating repository: " ++ e)
  | .response status errorCodes message body =>
    if status = 201 then
      (true, "Repository " ++ repo_name ++ " created successfully")
    else if status = 422 then
      match errorCodes with
      | some codes =>
        if codes.contains ("already_exists") then
          (false, "Repository " ++ repo_name ++ " already exists")
        else
          (false, "Repository " ++ repo_name ++ " validation failed: "
            ++ message.getD ("Unknown error"))
      | none =>
        (false, "Repository " ++ repo_name ++ " validation failed: "
          ++ message.getD ("Unknown error"))
    else if status = 401 then
      (false, "Authentication failed - check your Personal Access Token permissions (needs repo scope)")
    else if status = 403 then
      (false, "Permission denied - check your Personal Access Token has repo scope enabled")
    else
      (false, "GitHub API error: " ++ toString status ++ " - " ++ body)

/-- The new-repository branch of the background worker in
`MainWindow.upload_to_github` ( `gui_components.py` 433-446 ) : create
the repository, and only on success proceed to
`init_and_push_repository`.  The second component records whether the
init/stage/commit/push phase was invoked at all. -/
def upload_thread_new (repo_name : String) (api : ApiResult) (env : GitEnv)
    (username token : String) : (Bool × String) × Bool :=
  let cr := create_github_repository repo_name api
  if cr.1 then
    ((init_and_push_repository env username repo_name token).1, true)
  else
    ((false, "Failed to create repository: " ++ cr.2), false)

/-! ### Presentation-layer single-flight guard  (claim C7)

`MainWindow.upload_to_github` ( `gui_components.py` 380-468 ) together
with the terminal handlers `upload_succeeded` (762-770) and
`upload_failed` (889-897).  Only the workflow-relevant state — the
`is_uploading` flag — is modelled; the observable effects of one
invocation are the validation error dialogs and the start of the
background worker.
-/

structure UiState where
  is_uploading : Bool
deriving DecidableEq, Repr

inductive UiEffect where
  | errorDialog (msg : String)
  | startWorker (repo_mode : String)
deriving DecidableEq, Repr

/-- The synchronous part of `MainWindow.upload_to_github` : an immediate
no-op while a workflow is in flight, then the validation chain (each
failure shows a dialog and leaves the state untouched), and finally the
flag is set and the worker thread started. -/
def upload_to_github (st : UiState) (username token project_path repo_name : String)
    (repo_mode commit_mode : String) (selected_files : List String)
    (path_exists : Bool) : UiState × List UiEffect :=
  if st.is_uploading then (st, [])
  else if strip username = ("") then
    (st, [.errorDialog ("Please enter your GitHub username")])
  else if strip token = ("") then
    (st, [.errorDialog ("Please enter your GitHub Personal Access Token")])
  else if strip project_path = ("") then
    (st, [.errorDialog ("Please select a project folder")])
  else if strip repo_name = ("") then
    (st, [.errorDialog ("Please enter a repository name")])
  else if ¬ path_exists then
    (st, [.errorDialog ("Selected project folder does not exist")])
  else if repo_mode = ("existing") ∧ commit_mode = ("selected") ∧ selected_files = [] then
    (st, [.errorDialog ("Please select at least one file to commit")])
  else
    ({ is_uploading := true }, [.startWorker repo_mode])

/-- `MainWindow.upload_succeeded` : terminal success handler clears the flag. -/
def upload_succeeded (st : UiState) : UiState :=
  { st with is_uploading := false }

/-- `MainWindow.upload_failed` : terminal failure handler clears the flag. -/
def upload_failed (st : UiState) : UiState :=
  { st with is_uploading := false }

/-! ### Staging semantics of the external VCS  (claim C8)

Modelled from the spec: the `git` executable is an external collaborator
(spec sections 4.2 and 6), so the effect of its `add` subcommands on the
index is modelled here from the spec text — `add .` stages every file
under the project root except those matched by ignore rules, `add -u`
stages only files already tracked and changed, `add <p>` stages the path
`p`.  A repository working tree is a `RepoState` of finite path sets
(as lists); `staged` is the set of paths staged so far.
-/

structure RepoState where
  files : List String
  tracked : List String
  changedFiles : List String
  ignored : List String
  staged : List String

/-- Modelled from the spec: `git add .` run at the project root. -/
def gitAddAll (st : RepoState) : RepoState :=
  { st with staged := st.staged ++ st.files.filter (fun f => ¬ st.ignored.contains f) }

/-- Modelled from the spec: `git add -u`. -/
def gitAddUpdate (st : RepoState) : RepoState :=
  { st with staged := st.staged ++ st.changedFiles.filter (fun f => st.tracked.contains f) }

/-- Modelled from the spec: `git add <p>` for an explicit relative path. -/
def gitAddPath (p : String) (st : RepoState) : RepoState :=
  { st with staged := st.staged ++ [p] }

/-- Interpret the staging commands of a workflow trace over a repository
state; non-staging commands leave the index untouched. -/
def runStageCmds (cmds : List GitCmd) (st : RepoState) : RepoState :=
  cmds.foldl (fun s c =>
    match c with
    | .addAll => gitAddAll s
    | .addUpdate => gitAddUpdate s
    | .addPath p => gitAddPath p s
    | _ => s) st

/-! ### Credential obfuscation  (claim C9)

`MainWindow.encode_credentials` / `decode_credentials`
( `gui_components.py` 828-837 ) wrap `base64.b64encode` / `b64decode`
from the Python standard library (an external collaborator, embedded
here at byte level: credentials are UTF-8 byte lists, encodings are
character lists over the standard base64 alphabet with `=` padding).
`save_credentials` (839-869) writes only the encoded forms under the
`username_encoded` / `token_encoded` keys; `load_credentials` (871-887)
reads them back and decodes.
-/

def b64alphabet : List Char :=
  [ 'A', 'B', 'C', 'D', 'E', 'F', 'G', 'H', 'I', 'J', 'K', 'L', 'M',
    'N', 'O', 'P', 'Q', 'R', 'S', 'T', 'U', 'V', 'W', 'X', 'Y', 'Z',
    'a', 'b', 'c', 'd', 'e', 'f', 'g', 'h', 'i', 'j', 'k', 'l', 'm',
    'n', 'o', 'p', 'q', 'r', 's', 't', 'u', 'v', 'w', 'x', 'y', 'z',
    '0', '1', '2', '3', '4', '5', '6', '7', '8', '9', '+', '/' ]

/-- The alphabet character for a 6-bit value. -/
def b64charOf (n : Nat) : Char :=
  b64alphabet.getD n '='

/-- The 6-bit value of an alphabet character ( `none` off the alphabet ). -/
def b64valOf (c : Char) : Option Nat :=
  if b64alphabet.contains c then some (b64alphabet.indexOf c) else none

/-- `base64.b64encode` on a byte list: 3-byte groups become 4 alphabet
characters; a trailing group of 1 or 2 bytes is padded with `=`. -/
def b64encodeBytes : List Nat → List Char
  | [] => []
  | [a] => [b64charOf (a / 4), b64charOf (a % 4 * 16), '=', '=']
  | [a, b] => [b64charOf (a / 4), b64charOf (a % 4 * 16 + b / 16),
      b64charOf (b % 16 * 4), '=']
  | a :: b :: c :: rest =>
      b64charOf (a / 4) :: b64charOf (a % 4 * 16 + b / 16)
        :: b64charOf (b % 16 * 4 + c / 64) :: b64charOf (c % 64)
        :: b64encodeBytes rest

/-- `base64.b64decode` on a character list: 4-character groups, the last
one possibly `=`-padded; anything else is a decoding error ( `none` ). -/
def b64decodeBytes : List Char → Option (List Nat)
  | [] => some []
  | c1 :: c2 :: c3 :: c4 :: rest =>
    if c3 = '=' then
      match b64valOf c1, b64valOf c2 with
      | some v1, some v2 =>
        if c4 = '=' ∧ rest = [] then some [v1 * 4 + v2 / 16] else none
      | _, _ => none
    else if c4 = '=' then
      match b64valOf c1, b64valOf c2, b64valOf c3 with
      | some v1, some v2, some v3 =>
        if rest = [] then some [v1 * 4 + v2 / 16, v2 % 16 * 16 + v3 / 4] else none
      | _, _, _ => none
    else
      match b64valOf c1, b64valOf c2, b64valOf c3, b64valOf c4, b64decodeBytes rest with
      | some v1, some v2, some v3, some v4, some bs =>
        some ((v1 * 4 + v2 / 16) :: (v2 % 16 * 16 + v3 / 4) :: (v3 % 4 * 64 + v4) :: bs)
      | _, _, _, _, _ => none
  | _ => none

/-- `MainWindow.encode_credentials` : base64 of the UTF-8 bytes. -/
def encode_credentials (text : List Nat) : List Char :=
  b64encodeBytes text

/-- `MainWindow.decode_credentials` : base64 decode, empty on any error. -/
def decode_credentials (encoded_text : List Char) : List Nat :=
  match b64decodeBytes encoded_text with
  | some bs => bs
  | none => []

/-- The `GitHub` section of `config.ini` as written by `save_credentials`. -/
structure ConfigGitHub where
  username_encoded : List Char
  token_encoded : List Char
deriving DecidableEq, Repr

/-- `MainWindow.save_credentials` : refuse empty inputs, otherwise
persist exactly the two encoded fields. -/
def save_credentials (username token : List Nat) : Option ConfigGitHub :=
  if username = [] ∨ token = [] then none
  else some { username_encoded := encode_credentials username,
              token_encoded := encode_credentials token }

/-- `MainWindow.load_credentials` : read the two encoded fields (empty
fallback), decode, and only restore when both decodes are non-empty. -/
def load_credentials (cfg : ConfigGitHub) : Option (List Nat × List Nat) :=
  if cfg.username_encoded ≠ [] ∧ cfg.token_encoded ≠ [] then
    let username := decode_credentials cfg.username_encoded
    let token := decode_credentials cfg.token_encoded
    if username ≠ [] ∧ token ≠ [] then some (username, token) else none
  else none

/-! ### Repository-name cleaning  (claim C10)

`clean_repo_name` ( `utils.py` 54-74 ), embedded over character lists.
-/

/-- A character kept by the `[^a-zA-Z0-9._-]` substitution. -/
def isRepoChar (c : Char) : Bool :=
  c.isAlpha || c.isDigit || c = '.' || c = '_' || c = '-'

/-- A character removed by Python `str.strip('-.')`. -/
def isStripDotDash (c : Char) : Bool :=
  c = '-' || c = '.'

/-- Python `cleaned.strip('-.')` : drop `-` and `.` from both ends. -/
def stripDotsDashes (s : List Char) : List Char :=
  ((s.dropWhile isStripDotDash).reverse.dropWhile isStripDotDash).reverse

/-- `clean_repo_name` : empty in, empty out; otherwise substitute
invalid characters with `-`, strip `-` and `.` from both ends, drop a
leading dot, truncate to 100 characters, and fall back to
`my-project` when nothing remains. -/
def clean_repo_name (name : List Char) : List Char :=
  if name = [] then []
  else
    let cleaned := name.map (fun c => if isRepoChar c then c else '-')
    let cleaned := stripDotsDashes cleaned
    let cleaned := if cleaned.head? = some '.' then cleaned.tail else cleaned
    let cleaned := if cleaned.length > 100 then cleaned.take 100 else cleaned
    if cleaned = [] then ['m', 'y', '-', 'p', 'r', 'o', 'j', 'e', 'c', 't'] else cleaned

/-! ## Theorems -/

/-- C1: for every credential pair, both repository existence checks
( `MainWindow.check_repository_exists` and
`GitHubLauncher.check_repository_exists` ) return success exactly when
the remote HTTP response status is 200; every other status (404, 401,
other) and a raised request exception yield `false` with a reason. -/
theorem exists_check_success_iff_200 (username repo_name : String) (r : HttpResult) :
    ((check_repository_exists username repo_name r).1 = true
      ↔ ∃ body, r = .response 200 body) ∧
    ((launcher_check_repository_exists username repo_name r).1 = true
      ↔ ∃ body, r = .response 200 body) := by
  constructor <;>
  · cases r with
    | exn e =>
      simp [check_repository_exists, launcher_check_repository_exists]
    | response s b =>
      by_cases h200 : s = 200
      · subst h200
        simp only [check_repository_exists, launcher_check_repository_exists]
        simp
        try exact ⟨b, rfl⟩
      · by_cases h404 : s = 404 <;> by_cases h401 : s = 401 <;>
          simp_all [check_repository_exists, launcher_check_repository_exists]

/-- C2: in both the new-repository path and the existing-repository
path, when the porcelain status output is empty after staging, the
workflow returns failure with the nothing-to-commit reason of that path
and no `git commit` is ever issued. -/
theorem nothing_to_commit_short_circuits (env : GitEnv)
    (username repo_name token commit_mode cmsg : String) (sel : List String)
    (hgit : env.gitFound = true)
    (hstatus : strip env.statusOutput = "")
    (hclone : env.hasGitDir = false → env.cloneExit = 0 ∧ env.copyFails = false) :
    (init_and_push_repository env username repo_name token).1
        = (false, "No files found to upload in the selected directory") ∧
    (∀ m, GitCmd.commit m ∉ (init_and_push_repository env username repo_name token).2) ∧
    (commit_to_existing_repository env commit_mode sel cmsg username repo_name token).1
        = (false, "No changes found to commit") ∧
    (∀ m, GitCmd.commit m
      ∉ (commit_to_existing_repository env commit_mode sel cmsg username repo_name token).2) := by
  refine ⟨?_, ?_, ?_, ?_⟩
  · simp [init_and_push_repository, hgit, hstatus]
  · intro m
    simp [init_and_push_repository, hgit, hstatus]
  · cases hd : env.hasGitDir with
    | true => simp [commit_to_existing_repository, hgit, hstatus, hd]
    | false =>
      obtain ⟨hc, hcp⟩ := hclone hd
      simp [commit_to_existing_repository, hgit, hstatus, hd, hc, hcp]
  · intro m
    cases hd : env.hasGitDir with
    | true =>
      simp [commit_to_existing_repository, hgit, hstatus, hd, staging_cmds]
      split <;> try split <;> try split
      all_goals simp
    | false =>
      obtain ⟨hc, hcp⟩ := hclone hd
      simp [commit_to_existing_repository, hgit, hstatus, hd, hc, hcp, staging_cmds]
      split <;> try split <;> try split
      all_goals simp

/-- Witness for C2 at a concrete environment: git found, empty porcelain
output, a `.git` directory already present. -/
theorem nothing_to_commit_short_circuits_witness :
    (init_and_push_repository
        { gitFound := true, gitignoreExists := false, hasGitDir := true,
          cloneExit := 0, cloneStderr := "", copyFails := false, copyErrMsg := "",
          statusOutput := "", pushExit := 0, pushStderr := "", pushStdout := "" }
        "alice" "proj" "tok").1
      = (false, "No files found to upload in the selected directory") ∧
    (commit_to_existing_repository
        { gitFound := true, gitignoreExists := false, hasGitDir := true,
          cloneExit := 0, cloneStderr := "", copyFails := false, copyErrMsg := "",
          statusOutput := "", pushExit := 0, pushStderr := "", pushStdout := "" }
        "all" [] "msg" "alice" "proj" "tok").1
      = (false, "No changes found to commit") := by
  have h := nothing_to_commit_short_circuits
    { gitFound := true, gitignoreExists := false, hasGitDir := true,
      cloneExit := 0, cloneStderr := "", copyFails := false, copyErrMsg := "",
      statusOutput := "", pushExit := 0, pushStderr := "", pushStdout := "" }
    "alice" "proj" "tok" "all" "msg" []
    (by decide) (by decide) (by intro h; cases h)
  exact ⟨h.1, h.2.2.1⟩

/-- C3 counterexample: in the existing-repository path, a failed push
whose combined output contains the authentication-failure substring is
reported with the generic operation-failed reason carrying the raw
output — not the specific authentication-failure reason — refuting the
claim that the classification holds in both paths. -/
theorem existing_push_auth_not_classified :
    strContainsSub
      (lowerStr (push_error_output
        { gitFound := true, gitignoreExists := true, hasGitDir := true,
          cloneExit := 0, cloneStderr := "", copyFails := false, copyErrMsg := "",
          statusOutput := "M x", pushExit := 1,
          pushStderr := "fatal: Authentication failed for repo", pushStdout := "" }))
      ("authentication failed") = true ∧
    (commit_to_existing_repository
        { gitFound := true, gitignoreExists := true, hasGitDir := true,
          cloneExit := 0, cloneStderr := "", copyFails := false, copyErrMsg := "",
          statusOutput := "M x", pushExit := 1,
          pushStderr := "fatal: Authentication failed for repo", pushStdout := "" }
        "all" [] "msg" "alice" "proj" "tok").1
      = (false, "Git push failed: fatal: Authentication failed for repo") := by
  decide

/-- C3 (amended): in the new-repository path, a failed push whose
combined output contains the authentication-failure substring is
classified as the specific authentication-failure reason; in the
existing-repository path every failed push yields the generic reason
carrying the raw output. -/
theorem push_auth_classification (env : GitEnv)
    (username repo_name token commit_mode cmsg : String) (sel : List String)
    (hgit : env.gitFound = true)
    (hstatus : strip env.statusOutput ≠ "")
    (hpush : env.pushExit ≠ 0)
    (hauth : (strContainsSub (lowerStr (push_error_output env)) ("authentication failed")
      || strContainsSub (lowerStr (push_error_output env)) ("invalid username or password")) = true)
    (hclone : env.hasGitDir = true) :
    (init_and_push_repository env username repo_name token).1
      = (false, "Git push authentication failed. Please check your Personal Access Token permissions.") ∧
    (commit_to_existing_repository env commit_mode sel cmsg username repo_name token).1
      = (false, "Git push failed: " ++ push_error_output env) := by
  constructor
  · simp [init_and_push_repository, hgit, hstatus, hpush, classify_push_failure, hauth]
  · simp [commit_to_existing_repository, hgit, hstatus, hpush, hclone]

/-- Witness for C3 (amended) at a concrete failing push. -/
theorem push_auth_classification_witness :
    (init_and_push_repository
        { gitFound := true, gitignoreExists := true, hasGitDir := true,
          cloneExit := 0, cloneStderr := "", copyFails := false, copyErrMsg := "",
          statusOutput := "M x", pushExit := 1,
          pushStderr := "remote: Invalid username or password.", pushStdout := "" }
        "alice" "proj" "tok").1
      = (false, "Git push authentication failed. Please check your Personal Access Token permissions.") :=
  (push_auth_classification
    { gitFound := true, gitignoreExists := true, hasGitDir := true,
      cloneExit := 0, cloneStderr := "", copyFails := false, copyErrMsg := "",
      statusOutput := "M x", pushExit := 1,
      pushStderr := "remote: Invalid username or password.", pushStdout := "" }
    "alice" "proj" "tok" "all" "m" []
    (by decide) (by decide) (by decide) (by decide) (by decide)).1

/-- C4: when repository creation reports HTTP 422 with an
`already_exists` error code, `create_github_repository` returns failure
(never success) and the new-repository driver terminates with the
creation failure without invoking the init/stage/commit/push phase. -/
theorem already_exists_is_terminal_failure
    (repo_name username token : String) (codes : List String)
    (message : Option String) (body : String) (env : GitEnv)
    (h : ("already_exists" : String) ∈ codes) :
    create_github_repository repo_name (.response 422 (some codes) message body)
      = (false, "Repository " ++ repo_name ++ " already exists") ∧
    upload_thread_new repo_name (.response 422 (some codes) message body) env username token
      = ((false, "Failed to create repository: "
            ++ ("Repository " ++ repo_name ++ " already exists")),
          false) := by
  refine ⟨?_, ?_⟩ <;>
    simp [upload_thread_new, create_github_repository, h]

/-- Witness for C4 at a concrete 422 response. -/
theorem already_exists_is_terminal_failure_witness :
    upload_thread_new "proj"
        (.response 422 (some ["already_exists"]) (some "Validation Failed") "body")
        { gitFound := true, gitignoreExists := false, hasGitDir := true,
          cloneExit := 0, cloneStderr := "", copyFails := false, copyErrMsg := "",
          statusOutput := "M x", pushExit := 0, pushStderr := "", pushStdout := "" }
        "alice" "tok"
      = ((false, "Failed to create repository: Repository proj already exists"), false) :=
  (already_exists_is_terminal_failure "proj" "alice" "tok" ["already_exists"]
    (some "Validation Failed") "body"
    { gitFound := true, gitignoreExists := false, hasGitDir := true,
      cloneExit := 0, cloneStderr := "", copyFails := false, copyErrMsg := "",
      statusOutput := "M x", pushExit := 0, pushStderr := "", pushStdout := "" }
    (by decide)).2

/-- C5 (evaluation at the failing input): in the existing-repository
path on a directory without `.git`, a failed clone returns the terminal
failure while the temp directory created for the clone is never removed
( `shutil.rmtree` runs only after a successful `.git` copy ); on the
successful path the temp directory is removed before the terminal
result. -/
theorem clone_failure_leaks_temp_dir :
    ((commit_to_existing_repository
        { gitFound := true, gitignoreExists := true, hasGitDir := false,
          cloneExit := 1, cloneStderr := "fatal: could not read Username", copyFails := false,
          copyErrMsg := "", statusOutput := "M x", pushExit := 0,
          pushStderr := "", pushStdout := "" }
        "all" [] "m" "alice" "proj" "tok").1.1 = false ∧
      temp_dir_created (commit_to_existing_repository
        { gitFound := true, gitignoreExists := true, hasGitDir := false,
          cloneExit := 1, cloneStderr := "fatal: could not read Username", copyFails := false,
          copyErrMsg := "", statusOutput := "M x", pushExit := 0,
          pushStderr := "", pushStdout := "" }
        "all" [] "m" "alice" "proj" "tok").2 = true ∧
      temp_dir_removed (commit_to_existing_repository
        { gitFound := true, gitignoreExists := true, hasGitDir := false,
          cloneExit := 1, cloneStderr := "fatal: could not read Username", copyFails := false,
          copyErrMsg := "", statusOutput := "M x", pushExit := 0,
          pushStderr := "", pushStdout := "" }
        "all" [] "m" "alice" "proj" "tok").2 = false) ∧
    temp_dir_removed (commit_to_existing_repository
        { gitFound := true, gitignoreExists := true, hasGitDir := false,
          cloneExit := 0, cloneStderr := "", copyFails := false,
          copyErrMsg := "", statusOutput := "M x", pushExit := 0,
          pushStderr := "", pushStdout := "" }
        "all" [] "m" "alice" "proj" "tok").2 = true := by
  decide

/-- C6 counterexample: a concrete existing-repository run on a directory
without a `.gitignore` issues no ignore-file write at all, refuting the
claim that every workflow run writes the ignore-rule file before
staging. -/
theorem existing_path_never_writes_gitignore :
    GitCmd.writeGitignore ∉
      (commit_to_existing_repository
        { gitFound := true, gitignoreExists := false, hasGitDir := true,
          cloneExit := 0, cloneStderr := "", copyFails := false, copyErrMsg := "",
          statusOutput := "M x", pushExit := 0, pushStderr := "", pushStdout := "" }
        "all" [] "m" "alice" "proj" "tok").2 := by
  decide

/-- Helper: no staging command is an ignore-file write. -/
theorem writeGitignore_not_mem_staging (commit_mode : String) (sel : List String) :
    GitCmd.writeGitignore ∉ staging_cmds commit_mode sel := by
  unfold staging_cmds
  split
  · simp
  · split
    · simp
    · split <;> simp

/-- C6 (amended): in the new-repository path the preparing step sets the
committer identity and writes the ignore-rule file (when absent) before
any staging command; in the existing-repository path only the identity
is set before staging, and no ignore-rule file is ever written. -/
theorem preparing_step_identity_and_gitignore (env : GitEnv)
    (username repo_name token commit_mode cmsg : String) (sel : List String)
    (hgit : env.gitFound = true)
    (hignore : env.gitignoreExists = false)
    (hclone : env.hasGitDir = true) :
    (GitCmd.writeGitignore
        ∈ preStagingTrace (init_and_push_repository env username repo_name token).2 ∧
      GitCmd.configUserName username
        ∈ preStagingTrace (init_and_push_repository env username repo_name token).2 ∧
      GitCmd.configUserEmail (username ++ "@github.com")
        ∈ preStagingTrace (init_and_push_repository env username repo_name token).2) ∧
    (GitCmd.writeGitignore
        ∉ (commit_to_existing_repository env commit_mode sel cmsg username repo_name token).2 ∧
      GitCmd.configUserName username
        ∈ preStagingTrace
            (commit_to_existing_repository env commit_mode sel cmsg username repo_name token).2 ∧
      GitCmd.configUserEmail (username ++ "@github.com")
        ∈ preStagingTrace
            (commit_to_existing_repository env commit_mode sel cmsg username repo_name token).2) := by
  constructor
  · by_cases hs : strip env.statusOutput = "" <;>
      by_cases hp : env.pushExit = 0 <;>
      simp [init_and_push_repository, hgit, hignore, hs, hp, preStagingTrace,
        List.takeWhile_cons, isStagingCmd]
  · refine ⟨?_, ?_⟩
    · by_cases hs : strip env.statusOutput = "" <;>
        by_cases hp : env.pushExit = 0 <;>
        simp [commit_to_existing_repository, hgit, hclone, hs, hp,
          writeGitignore_not_mem_staging]
    · by_cases hs : strip env.statusOutput = "" <;>
        by_cases hp : env.pushExit = 0 <;>
        simp [commit_to_existing_repository, hgit, hclone, hs, hp, preStagingTrace,
          List.takeWhile_cons, isStagingCmd]

/-- C7: invoking the upload operation while the in-flight flag is set is
a complete no-op (state unchanged, no dialogs, no worker); both terminal
handlers clear the flag; and from an idle state the flag ends up set
exactly when the invocation starts the background worker (every
validation failure leaves the flag clear). -/
theorem single_upload_in_flight (st : UiState)
    (username token project_path repo_name repo_mode commit_mode : String)
    (sel : List String) (path_exists : Bool) :
    upload_to_github { is_uploading := true } username token project_path repo_name
        repo_mode commit_mode sel path_exists = ({ is_uploading := true }, []) ∧
    upload_succeeded st = { is_uploading := false } ∧
    upload_failed st = { is_uploading := false } ∧
    ((upload_to_github { is_uploading := false } username token project_path repo_name
        repo_mode commit_mode sel path_exists).1.is_uploading = true
      ↔ (upload_to_github { is_uploading := false } username token project_path repo_name
          repo_mode commit_mode sel path_exists).2 = [UiEffect.startWorker repo_mode]) := by
  refine ⟨rfl, rfl, rfl, ?_⟩
  unfold upload_to_github
  simp only [Bool.false_eq_true, if_false]
  split
  · simp
  · split
    · simp
    · split
      · simp
      · split
        · simp
        · split
          · simp
          · split <;> simp

/-- C8: the staging commands issued by the existing-repository path
implement the Commit Selection policy over the modelled index: mode
`all` stages exactly the files under the project root not matched by
ignore rules, mode `changed` stages exactly the already-tracked changed
files, and mode `selected` stages exactly the user-chosen relative
paths — whatever their order, since membership in the selection list is
order-independent. -/
theorem staging_implements_commit_selection (st : RepoState) (sel : List String)
    (f : String) (hst : st.staged = []) :
    (f ∈ (runStageCmds (staging_cmds ("all") sel) st).staged
      ↔ f ∈ st.files ∧ f ∉ st.ignored) ∧
    (f ∈ (runStageCmds (staging_cmds ("changed") sel) st).staged
      ↔ f ∈ st.changedFiles ∧ f ∈ st.tracked) ∧
    (f ∈ (runStageCmds (staging_cmds ("selected") sel) st).staged
      ↔ f ∈ sel) := by
  refine ⟨?_, ?_, ?_⟩
  · simp [staging_cmds, runStageCmds, gitAddAll, hst]
  · simp [staging_cmds, runStageCmds, gitAddUpdate, hst]
  · have key : ∀ (l : List String) (s : RepoState),
        (runStageCmds (l.map GitCmd.addPath) s).staged = s.staged ++ l := by
      intro l
      induction l with
      | nil => intro s; simp [runStageCmds]
      | cons p ps ih =>
        intro s
        simp [runStageCmds, gitAddPath] at ih ⊢
        rw [ih, List.append_assoc]
        rfl
    simp [staging_cmds, key, hst]

/-- Witness for C8 at a concrete index and selection. -/
theorem staging_implements_commit_selection_witness :
    ("a.txt" ∈ (runStageCmds (staging_cmds ("all") ["b.txt"])
        { files := ["a.txt", "config.ini"], tracked := ["a.txt"],
          changedFiles := ["a.txt"], ignored := ["config.ini"], staged := [] }).staged
      ↔ ("a.txt" ∈ (["a.txt", "config.ini"] : List String)
          ∧ "a.txt" ∉ (["config.ini"] : List String))) ∧
    ("a.txt" ∈ (runStageCmds (staging_cmds ("selected") ["b.txt"])
        { files := ["a.txt", "config.ini"], tracked := ["a.txt"],
          changedFiles := ["a.txt"], ignored := ["config.ini"], staged := [] }).staged
      ↔ "a.txt" ∈ (["b.txt"] : List String)) := by
  have h := staging_implements_commit_selection
    { files := ["a.txt", "config.ini"], tracked := ["a.txt"],
      changedFiles := ["a.txt"], ignored := ["config.ini"], staged := [] }
    ["b.txt"] "a.txt" rfl
  exact ⟨h.1, h.2.2⟩

/-- Witness for C6 (amended) at a concrete environment without a
pre-existing ignore file. -/
theorem preparing_step_identity_and_gitignore_witness :
    GitCmd.writeGitignore
        ∈ preStagingTrace (init_and_push_repository
            { gitFound := true, gitignoreExists := false, hasGitDir := true,
              cloneExit := 0, cloneStderr := "", copyFails := false, copyErrMsg := "",
              statusOutput := "M x", pushExit := 0, pushStderr := "", pushStdout := "" }
            "alice" "proj" "tok").2 ∧
      GitCmd.configUserName "alice"
        ∈ preStagingTrace (init_and_push_repository
            { gitFound := true, gitignoreExists := false, hasGitDir := true,
              cloneExit := 0, cloneStderr := "", copyFails := false, copyErrMsg := "",
              statusOutput := "M x", pushExit := 0, pushStderr := "", pushStdout := "" }
            "alice" "proj" "tok").2 ∧
      GitCmd.configUserEmail ("alice" ++ "@github.com")
        ∈ preStagingTrace (init_and_push_repository
            { gitFound := true, gitignoreExists := false, hasGitDir := true,
              cloneExit := 0, cloneStderr := "", copyFails := false, copyErrMsg := "",
              statusOutput := "M x", pushExit := 0, pushStderr := "", pushStdout := "" }
            "alice" "proj" "tok").2 :=
  (preparing_step_identity_and_gitignore
    { gitFound := true, gitignoreExists := false, hasGitDir := true,
      cloneExit := 0, cloneStderr := "", copyFails := false, copyErrMsg := "",
      statusOutput := "M x", pushExit := 0, pushStderr := "", pushStdout := "" }
    "alice" "proj" "tok" "all" "m" [] rfl rfl rfl).1

/-- Helper: the alphabet lookup inverts the alphabet character map on
6-bit values. -/
theorem b64valOf_charOf : ∀ n, n < 64 → b64valOf (b64charOf n) = some n := by
  decide

/-- Helper: no 6-bit value encodes to the padding character. -/
theorem b64charOf_ne_pad : ∀ n, n < 64 → b64charOf n ≠ '=' := by
  decide

/-- Helper: base64 decoding inverts base64 encoding on byte lists. -/
theorem b64_roundtrip : ∀ (bs : List Nat), (∀ b ∈ bs, b < 256) →
    b64decodeBytes (b64encodeBytes bs) = some bs
  | [], _ => rfl
  | [a], h => by
    have ha : a < 256 := h a (by simp)
    have e1 := b64valOf_charOf (a / 4) (by omega)
    have e2 := b64valOf_charOf (a % 4 * 16) (by omega)
    simp [b64encodeBytes, b64decodeBytes, e1, e2]
    omega
  | [a, b], h => by
    have ha : a < 256 := h a (by simp)
    have hb : b < 256 := h b (by simp)
    have e1 := b64valOf_charOf (a / 4) (by omega)
    have e2 := b64valOf_charOf (a % 4 * 16 + b / 16) (by omega)
    have e3 := b64valOf_charOf (b % 16 * 4) (by omega)
    have n3 := b64charOf_ne_pad (b % 16 * 4) (by omega)
    simp [b64encodeBytes, b64decodeBytes, e1, e2, e3, n3]
    constructor <;> omega
  | a :: b :: c :: rest, h => by
    have ha : a < 256 := h a (by simp)
    have hb : b < 256 := h b (by simp)
    have hc : c < 256 := h c (by simp)
    have ih := b64_roundtrip rest (fun x hx => h x (by simp [hx]))
    have e1 := b64valOf_charOf (a / 4) (by omega)
    have e2 := b64valOf_charOf (a % 4 * 16 + b / 16) (by omega)
    have e3 := b64valOf_charOf (b % 16 * 4 + c / 64) (by omega)
    have e4 := b64valOf_charOf (c % 64) (by omega)
    have n3 := b64charOf_ne_pad (b % 16 * 4 + c / 64) (by omega)
    have n4 := b64charOf_ne_pad (c % 64) (by omega)
    simp [b64encodeBytes, b64decodeBytes, e1, e2, e3, e4, n3, n4, ih]
    refine ⟨?_, ?_, ?_⟩ <;> omega

/-- Helper: the encoding of a non-empty byte list is non-empty. -/
theorem b64encode_ne_nil : ∀ (bs : List Nat), bs ≠ [] → b64encodeBytes bs ≠ []
  | [], h => absurd rfl h
  | [_], _ => by simp [b64encodeBytes]
  | [_, _], _ => by simp [b64encodeBytes]
  | _ :: _ :: _ :: _, _ => by simp [b64encodeBytes]

/-- C9: for every non-empty username/token byte pair, saving persists
exactly the base64-encoded forms under the two `_encoded` keys (never
the clear bytes), decoding inverts encoding, and loading the saved
configuration restores exactly the original username and token. -/
theorem credentials_save_load_roundtrip (u t : List Nat)
    (hu : u ≠ []) (ht : t ≠ [])
    (hub : ∀ b ∈ u, b < 256) (htb : ∀ b ∈ t, b < 256) :
    decode_credentials (encode_credentials u) = u ∧
    save_credentials u t
      = some { username_encoded := encode_credentials u,
               token_encoded := encode_credentials t } ∧
    load_credentials { username_encoded := encode_credentials u,
                       token_encoded := encode_credentials t } = some (u, t) := by
  have hdu : decode_credentials (b64encodeBytes u) = u := by
    simp [decode_credentials, b64_roundtrip u hub]
  have hdt : decode_credentials (b64encodeBytes t) = t := by
    simp [decode_credentials, b64_roundtrip t htb]
  refine ⟨hdu, ?_, ?_⟩
  · simp [save_credentials, hu, ht]
  · simp [load_credentials, encode_credentials, b64encode_ne_nil u hu,
      b64encode_ne_nil t ht, hdu, hdt, hu, ht]

/-- Witness for C9 on concrete bytes ( `hi` / `tok` ). -/
theorem credentials_save_load_roundtrip_witness :
    load_credentials { username_encoded := encode_credentials [104, 105],
                       token_encoded := encode_credentials [116, 111, 107] }
      = some ([104, 105], [116, 111, 107]) :=
  (credentials_save_load_roundtrip [104, 105] [116, 111, 107]
    (by decide) (by decide) (by decide) (by decide)).2.2

/-- Helper: the head of a `dropWhile` result fails the predicate. -/
theorem head_dropWhile_false {α : Type} (p : α → Bool) :
    ∀ (l : List α) (a : α), (l.dropWhile p).head? = some a → p a = false := by
  intro l
  induction l with
  | nil => intro a ha; simp at ha
  | cons x xs ih =>
    intro a ha
    rw [List.dropWhile_cons] at ha
    by_cases hx : p x
    · simp [hx] at ha
      exact ih a ha
    · simp [hx] at ha
      subst ha
      simpa using hx

/-- Helper: stripping characters from both ends yields a subset. -/
theorem stripDotsDashes_subset (s : List Char) : stripDotsDashes s ⊆ s := by
  intro c hc
  unfold stripDotsDashes at hc
  rw [List.mem_reverse] at hc
  have h1 := (List.dropWhile_sublist (l := (s.dropWhile isStripDotDash).reverse)
    (p := isStripDotDash)).subset hc
  rw [List.mem_reverse] at h1
  exact (List.dropWhile_sublist (l := s) (p := isStripDotDash)).subset h1

/-- Helper: the head of the double-ended strip fails the strip predicate. -/
theorem stripDotsDashes_head (s : List Char) (a : Char)
    (h : (stripDotsDashes s).head? = some a) : isStripDotDash a = false := by
  unfold stripDotsDashes at h
  have hpre : ((s.dropWhile isStripDotDash).reverse.dropWhile isStripDotDash).reverse
      <+: s.dropWhile isStripDotDash := by
    rw [← List.reverse_suffix, List.reverse_reverse]
    exact List.dropWhile_suffix isStripDotDash
  obtain ⟨t, ht⟩ := hpre
  have hx : (s.dropWhile isStripDotDash).head? = some a := by
    rw [← ht]
    cases hcase :
        ((s.dropWhile isStripDotDash).reverse.dropWhile isStripDotDash).reverse with
    | nil => rw [hcase] at h; simp at h
    | cons y ys =>
      rw [hcase] at h
      simp at h
      simp [h]
  exact head_dropWhile_false isStripDotDash s a hx

/-- Helper: taking a positive count preserves the optional head. -/
theorem head_take_pos {α : Type} (l : List α) (n : Nat) (hn : 0 < n) :
    (l.take n).head? = l.head? := by
  cases l with
  | nil => simp
  | cons x xs =>
    cases n with
    | zero => omega
    | succ m => simp

/-- C10 counterexample: on the empty input string the cleaning function
returns the empty string — not a non-empty fallback — refuting the claim
for every input. -/
theorem clean_repo_name_empty_input :
    clean_repo_name [] = [] := by
  decide

/-- C10 (amended): for every non-empty input, `clean_repo_name` returns
a non-empty list of at most 100 characters drawn from
`[a-zA-Z0-9._-]`, whose first character is neither a dot nor a hyphen
(falling back to `my-project` when nothing remains). -/
theorem clean_repo_name_valid (name : List Char) (h : name ≠ []) :
    clean_repo_name name ≠ [] ∧
    (clean_repo_name name).length ≤ 100 ∧
    (∀ c ∈ clean_repo_name name, isRepoChar c = true) ∧
    (∀ a, (clean_repo_name name).head? = some a → a ≠ '.' ∧ a ≠ '-') := by
  have hsub : ∀ c ∈ name.map (fun c => if isRepoChar c then c else '-'),
      isRepoChar c = true := by
    intro c hc
    rw [List.mem_map] at hc
    obtain ⟨x, _, hx⟩ := hc
    by_cases hb : isRepoChar x
    · rw [← hx, if_pos hb]; exact hb
    · rw [← hx, if_neg hb]; decide
  unfold clean_repo_name
  rw [if_neg h]
  dsimp only []
  set l1 := stripDotsDashes (name.map (fun c => if isRepoChar c then c else '-'))
    with hl1
  have hmem1 : ∀ c ∈ l1, isRepoChar c = true := by
    intro c hc
    exact hsub c (stripDotsDashes_subset _ hc)
  have hhead1 : ∀ a, l1.head? = some a → isStripDotDash a = false := by
    intro a ha
    exact stripDotsDashes_head _ a ha
  have hl2 : (if l1.head? = some '.' then l1.tail else l1) = l1 := by
    by_cases hc : l1.head? = some '.'
    · have hh := hhead1 '.' hc
      simp [isStripDotDash] at hh
    · rw [if_neg hc]
  rw [hl2]
  set l3 := if l1.length > 100 then l1.take 100 else l1 with hl3
  have hmem3 : ∀ c ∈ l3, isRepoChar c = true := by
    intro c hc
    rw [hl3] at hc
    by_cases hlen : l1.length > 100
    · rw [if_pos hlen] at hc
      exact hmem1 c (List.take_subset 100 l1 hc)
    · rw [if_neg hlen] at hc
      exact hmem1 c hc
  have hlen3 : l3.length ≤ 100 := by
    rw [hl3]
    by_cases hlen : l1.length > 100
    · rw [if_pos hlen]
      simp
    · rw [if_neg hlen]
      omega
  have hhead3 : ∀ a, l3.head? = some a → isStripDotDash a = false := by
    intro a ha
    rw [hl3] at ha
    by_cases hlen : l1.length > 100
    · rw [if_pos hlen, head_take_pos l1 100 (by omega)] at ha
      exact hhead1 a ha
    · rw [if_neg hlen] at ha
      exact hhead1 a ha
  by_cases hfb : l3 = []
  · rw [if_pos hfb]
    refine ⟨by decide, by decide, by decide, by decide⟩
  · rw [if_neg hfb]
    refine ⟨hfb, hlen3, hmem3, ?_⟩
    intro a ha
    have hh := hhead3 a ha
    simp [isStripDotDash] at hh
    exact ⟨hh.2, hh.1⟩

/-- Witness for C10 at a concrete messy name. -/
theorem clean_repo_name_valid_witness :
    clean_repo_name ("--My Project!!".data) ≠ [] :=
  (clean_repo_name_valid ("--My Project!!".data) (by decide)).1

end GithubUploader
